import Mathlib

/-!
# Rhizome wire protocol: a shallow embedding

This file embeds the byte-level encode/decode engine of the rhizome
messaging protocol (Go package `rhizome`) and proves the specification's
testable properties about it.

Modelling choices:
* Go byte strings (`string`, `[]byte`) are `List Nat`, one `Nat` per byte (genuine Go bytes always lie below 256).
* The Go `bytes.Reader` is explicit state passing: every primitive read takes
  the remaining byte list and returns the parsed value together with the
  unread remainder, or an error.
* Error values in the source are formatted strings; here each distinct error
  construction site gets its own constructor, carrying the data that the
  source interpolates into the message (field position, remote address, ...).
* A Go `*ConnResponder` is `Option ConnResponder`; the `net.Conn` behind it is
  reduced to the two address strings the codec can observe.  Dereferencing a
  nil responder in Go is a runtime panic; decode results therefore have a
  dedicated `nilPanic` outcome distinct from returning an error.
-/

namespace Rhizome

/-- `BytesInKilobyte = 1024` (source constant). -/
def BytesInKilobyte : Nat := 1024

/-- `ProtocolV1 = uint8(1)` (source constant). -/
def ProtocolV1 : Nat := 1

/-- `AckUnknown uint8 = 0` (source constant). -/
def AckUnknown : Nat := 0

/-- `AckSent uint8 = 1` (source constant). -/
def AckSent : Nat := 1

/-- `ConnResponder` wraps one `net.Conn`; the codec only ever observes the
connection's two address strings, so the embedding keeps exactly those. -/
structure ConnResponder where
  remoteAddr : String
  localAddr : String
deriving DecidableEq, Repr

/-- `Response` is the ack value and corresponding message UID (source struct
`Response { Ack uint8; UID string }`). -/
structure Response where
  ack : Nat
  uid : List Nat
deriving DecidableEq, Repr

/-- The decoded `Object` (source struct `Object`).  Pointer-valued fields
(`Responder *ConnResponder`, `Response *Response`) become `Option`s, nil
being `none`. -/
structure Object where
  version : Nat
  responder : Option ConnResponder
  response : Option Response
  objType : Nat
  cmdType : Nat
  ackPlcy : Nat
  uid : List Nat
  arg1 : List Nat
  arg2 : List Nat
  arg3 : List Nat
  arg4 : List Nat
  payloadEncoding : Nat
  payload : List Nat
deriving DecidableEq, Repr

/-! ## Primitive codec (decode.go) -/

/-- Primitive read failures: `eof` for `binary.Read` hitting end of input,
`shortRead` for `io.ReadFull` receiving fewer bytes than requested,
`lenLimit` for a declared length above the safety limit. -/
inductive PrimErr
  | eof
  | shortRead
  | lenLimit
deriving DecidableEq, Repr

/-- `readU8`: read one byte (`binary.Read` of a `uint8`). -/
def readU8 : List Nat → Except PrimErr (Nat × List Nat)
  | [] => .error .eof
  | b :: rest => .ok (b, rest)

/-- `io.ReadFull` into a buffer of size `n`: succeeds only when at least `n`
bytes remain. -/
def readFull (n : Nat) (l : List Nat) : Except PrimErr (List Nat × List Nat) :=
  if n ≤ l.length then .ok (l.take n, l.drop n) else .error .shortRead

/-- `readU8Len`: read a one-byte length and check it against the 255-byte
safety limit (the check is dead code for true bytes, as in the source). -/
def readU8Len (l : List Nat) : Except PrimErr (Nat × List Nat) :=
  match readU8 l with
  | .error _ => .error .eof
  | .ok (n, rest) => if n > 255 then .error .lenLimit else .ok (n, rest)

/-- `readStringU8`: length-prefixed string; a zero length yields the empty
string without touching the rest of the input. -/
def readStringU8 (l : List Nat) : Except PrimErr (List Nat × List Nat) :=
  match readU8Len l with
  | .error e => .error e
  | .ok (n, rest) =>
    if n = 0 then .ok ([], rest)
    else readFull n rest

/-- Read a big-endian `uint16` (`binary.Read`). -/
def readU16 : List Nat → Except PrimErr (Nat × List Nat)
  | b1 :: b2 :: rest => .ok (b1 * 256 + b2, rest)
  | _ => .error .eof

/-- `readU16Len`: read a two-byte big-endian length and check it against the
`64*BytesInKilobyte - 1` safety limit. -/
def readU16Len (l : List Nat) : Except PrimErr (Nat × List Nat) :=
  match readU16 l with
  | .error _ => .error .eof
  | .ok (n, rest) => if n > 64 * BytesInKilobyte - 1 then .error .lenLimit else .ok (n, rest)

/-- `readBytesU16`: length-prefixed byte blob; zero length yields `nil`. -/
def readBytesU16 (l : List Nat) : Except PrimErr (List Nat × List Nat) :=
  match readU16Len l with
  | .error e => .error e
  | .ok (n, rest) =>
    if n = 0 then .ok ([], rest)
    else readFull n rest

/-! ## Decode errors and outcomes -/

/-- One constructor per error construction site on the decode path, carrying
the data the source interpolates into the message text. -/
inductive DecodeErr
  | versionRead
  | objTypeRead
  | cmdTypeRead
  | ackPolicyRead
  | uidRead (e : PrimErr)
  | emptyUID (localAddr : String)
  | argRead (pos : Nat) (fromAddr : String) (e : PrimErr)
  | payloadEncodingRead (fromAddr : String)
  | payloadRead (fromAddr : String) (e : PrimErr)
  | trailingData
  | unsupportedVersion (v : Nat)
deriving DecidableEq, Repr

/-- Outcome of a decode step: a value, a returned error, or a runtime panic
from dereferencing a nil responder. -/
inductive DecodeResult (α : Type)
  | ok (a : α)
  | err (e : DecodeErr)
  | nilPanic
deriving DecidableEq, Repr

/-! ## Version 1 decoding (one.go) -/

/-- `parseBaseHeader`: obj_type, cmd_type, ack_policy, three `readU8`s. -/
def parseBaseHeader (l : List Nat) (cmd : Object) : DecodeResult (Object × List Nat) :=
  match readU8 l with
  | .error _ => .err .objTypeRead
  | .ok (o, l1) =>
  match readU8 l1 with
  | .error _ => .err .cmdTypeRead
  | .ok (c, l2) =>
  match readU8 l2 with
  | .error _ => .err .ackPolicyRead
  | .ok (a, l3) => .ok ({ cmd with objType := o, cmdType := c, ackPlcy := a }, l3)

/-- `parseTrackingHeader`: the UID string; an empty UID is rejected with an
error that interpolates `cmd.Responder.C.LocalAddr()`, so reaching that
branch with a nil responder panics. -/
def parseTrackingHeader (l : List Nat) (cmd : Object) : DecodeResult (Object × List Nat) :=
  match readStringU8 l with
  | .error e => .err (.uidRead e)
  | .ok (uid, l1) =>
    if uid = [] then
      match cmd.responder with
      | none => .nilPanic
      | some rsp => .err (.emptyUID rsp.localAddr)
    else .ok ({ cmd with uid := uid }, l1)

/-- `parseArgumentFields`: the four argument strings.  The source computes
`fromAddr := cmd.Responder.RemoteAddr()` immediately after the first read and
before checking its error, so a nil responder is dereferenced unconditionally
on every path through this function. -/
def parseArgumentFields (l : List Nat) (cmd : Object) : DecodeResult (Object × List Nat) :=
  match cmd.responder with
  | none => .nilPanic
  | some rsp =>
    match readStringU8 l with
    | .error e => .err (.argRead 1 rsp.remoteAddr e)
    | .ok (a1, l1) =>
    match readStringU8 l1 with
    | .error e => .err (.argRead 2 rsp.remoteAddr e)
    | .ok (a2, l2) =>
    match readStringU8 l2 with
    | .error e => .err (.argRead 3 rsp.remoteAddr e)
    | .ok (a3, l3) =>
    match readStringU8 l3 with
    | .error e => .err (.argRead 4 rsp.remoteAddr e)
    | .ok (a4, l4) =>
      .ok ({ cmd with arg1 := a1, arg2 := a2, arg3 := a3, arg4 := a4 }, l4)

/-- `parsePayloadEncoding`: the one-byte encoding tag; only its error branch
interpolates the remote address (and so only that branch can panic). -/
def parsePayloadEncoding (l : List Nat) (cmd : Object) : DecodeResult (Object × List Nat) :=
  match readU8 l with
  | .error _ =>
    match cmd.responder with
    | none => .nilPanic
    | some rsp => .err (.payloadEncodingRead rsp.remoteAddr)
  | .ok (e, l1) => .ok ({ cmd with payloadEncoding := e }, l1)

/-- `decodeV1`: header, tracking, arguments, payload encoding, payload, then
a fresh `Response` is attached and zero leftover bytes are required. -/
def decodeV1 (data : List Nat) (obj : Object) : DecodeResult Object :=
  match parseBaseHeader data obj with
  | .err e => .err e
  | .nilPanic => .nilPanic
  | .ok (obj1, l1) =>
  match parseTrackingHeader l1 obj1 with
  | .err e => .err e
  | .nilPanic => .nilPanic
  | .ok (obj2, l2) =>
  match parseArgumentFields l2 obj2 with
  | .err e => .err e
  | .nilPanic => .nilPanic
  | .ok (obj3, l3) =>
  match parsePayloadEncoding l3 obj3 with
  | .err e => .err e
  | .nilPanic => .nilPanic
  | .ok (obj4, l4) =>
  match readBytesU16 l4 with
  | .error e =>
    match obj4.responder with
    | none => .nilPanic
    | some rsp => .err (.payloadRead rsp.remoteAddr e)
  | .ok (payload, l5) =>
    if l5.length ≠ 0 then .err .trailingData
    else .ok { obj4 with
      payload := payload,
      response := some { ack := AckUnknown, uid := obj4.uid } }

/-- `parseProtoVer`: split off the leading version byte. -/
def parseProtoVer (data : List Nat) : Except PrimErr (Nat × List Nat) :=
  match data with
  | [] => .error .eof
  | b :: rest => .ok (b, rest)

/-- `DecodeFrame`: read the version byte, build the initial object with the
given responder attached and all other fields at their Go zero values, then
dispatch on the version. -/
def DecodeFrame (line : List Nat) (resp : Option ConnResponder) : DecodeResult Object :=
  match parseProtoVer line with
  | .error _ => .err .versionRead
  | .ok (version, rest) =>
    let obj : Object :=
      { version := version, responder := resp, response := none,
        objType := 0, cmdType := 0, ackPlcy := 0, uid := [],
        arg1 := [], arg2 := [], arg3 := [], arg4 := [],
        payloadEncoding := 0, payload := [] }
    match version with
    | 1 => decodeV1 rest obj
    | v => .err (.unsupportedVersion v)

/-! ## Encoding (encode.go, one.go, object file) -/

/-- `writeU16`: big-endian `uint16`; the `% 65536` models the `uint16(...)`
cast performed at every call site. -/
def writeU16 (n : Nat) : List Nat := [n % 65536 / 256, n % 256]

/-- `writeString8`: one-byte length prefix plus raw bytes; fails (writing
nothing) when the string exceeds 255 bytes, reporting the offending length. -/
def writeString8 (s : List Nat) : Except Nat (List Nat) :=
  if s.length > 255 then .error s.length
  else .ok (s.length :: s)

/-- Which u8-length-prefixed string field of the v1 frame an encode error
refers to. -/
inductive StrField
  | uid
  | arg1
  | arg2
  | arg3
  | arg4
deriving DecidableEq, Repr

/-- Encode-side errors, one constructor per error construction site. -/
inductive EncodeErr
  | emptyUID
  | payloadTooLarge (n : Nat)
  | stringTooLong (f : StrField) (n : Nat)
  | unsupportedVersion (v : Nat)
deriving DecidableEq, Repr

/-- `encodeV1`: validate, then emit version byte, fixed header, the five
u8-length strings, the encoding tag, and the u16-length payload. -/
def encodeV1 (obj : Object) : Except EncodeErr (List Nat) :=
  if obj.uid = [] then .error .emptyUID
  else if obj.payload.length > 64 * BytesInKilobyte - 1 then
    .error (.payloadTooLarge obj.payload.length)
  else
    match writeString8 obj.uid with
    | .error n => .error (.stringTooLong .uid n)
    | .ok u =>
    match writeString8 obj.arg1 with
    | .error n => .error (.stringTooLong .arg1 n)
    | .ok g1 =>
    match writeString8 obj.arg2 with
    | .error n => .error (.stringTooLong .arg2 n)
    | .ok g2 =>
    match writeString8 obj.arg3 with
    | .error n => .error (.stringTooLong .arg3 n)
    | .ok g3 =>
    match writeString8 obj.arg4 with
    | .error n => .error (.stringTooLong .arg4 n)
    | .ok g4 =>
      .ok (ProtocolV1 :: obj.objType :: obj.cmdType :: obj.ackPlcy ::
        (u ++ g1 ++ g2 ++ g3 ++ g4 ++
          obj.payloadEncoding :: (writeU16 obj.payload.length ++ obj.payload)))

/-- `EncodeFrame`: dispatch on `obj.Version`. -/
def EncodeFrame (obj : Object) : Except EncodeErr (List Nat) :=
  match obj.version with
  | 1 => encodeV1 obj
  | v => .error (.unsupportedVersion v)

/-- `EncodeResponseV1`: the uid write's error is discarded (`_ =`), the ack
byte is appended, and the body gets a u16 big-endian length prefix.  When
`writeString8` fails it has written nothing, so the body is just the ack. -/
def EncodeResponseV1 (response : Response) : List Nat :=
  let uidChunk := match writeString8 response.uid with
    | .ok u => u
    | .error _ => []
  let body := uidChunk ++ [response.ack]
  writeU16 body.length ++ body

/-- The unknown-version branch of `EncodeResponse` interpolates the remote
address into its error message. -/
inductive RespondErr
  | unsupported (remoteAddr : String)
deriving DecidableEq, Repr

/-- Outcome of `EncodeResponse`: bytes, a returned error, or a runtime panic
from dereferencing a nil pointer. -/
inductive RespondResult
  | ok (bytes : List Nat)
  | err (e : RespondErr)
  | nilPanic
deriving DecidableEq, Repr

/-- `EncodeResponse` (package-level): version 1 delegates to
`EncodeResponseV1` on `*obj.Response` (a nil response panics); any other
version builds an error from `obj.Responder.RemoteAddr()` (a nil responder
panics — there is no placeholder fallback in the source). -/
def EncodeResponse (obj : Object) : RespondResult :=
  match obj.version with
  | 1 =>
    match obj.response with
    | none => .nilPanic
    | some r => .ok (EncodeResponseV1 r)
  | _ =>
    match obj.responder with
    | none => .nilPanic
    | some rsp => .err (.unsupported rsp.remoteAddr)

/-! ## Primitive codec lemmas -/

theorem take_append_le {α : Type} (l r : List α) (j : Nat) (hj : j ≤ l.length) :
    (l ++ r).take j = l.take j := by
  rw [List.take_append_eq_append_take, Nat.sub_eq_zero_of_le hj, List.take_zero,
    List.append_nil]

theorem take_append_ge {α : Type} (l r : List α) (j : Nat) (hj : l.length ≤ j) :
    (l ++ r).take j = l ++ r.take (j - l.length) := by
  rw [List.take_append_eq_append_take, List.take_of_length_le hj]

theorem readU8Len_cons (b : Nat) (rest : List Nat) (hb : b ≤ 255) :
    readU8Len (b :: rest) = .ok (b, rest) := by
  unfold readU8Len readU8
  simp only [gt_iff_lt]
  rw [if_neg (show ¬ (255 < b) by omega)]

/-- `readStringU8` consumes exactly its length-prefixed chunk. -/
theorem readStringU8_chunk (s rest : List Nat) (h : s.length ≤ 255) :
    readStringU8 (s.length :: (s ++ rest)) = .ok (s, rest) := by
  simp only [readStringU8, readU8Len_cons s.length (s ++ rest) h]
  by_cases hs : s.length = 0
  · obtain rfl : s = [] := List.eq_nil_of_length_eq_zero hs
    simp
  · rw [if_neg hs]
    unfold readFull
    rw [if_pos (by simp)]
    rw [List.take_left, List.drop_left]

/-- `readStringU8` fails on every strict prefix of a length-prefixed chunk. -/
theorem readStringU8_trunc (s : List Nat) (h : s.length ≤ 255) (j : Nat)
    (hj : j < s.length + 1) :
    ∃ e, readStringU8 ((s.length :: s).take j) = .error e := by
  cases j with
  | zero => exact ⟨.eof, rfl⟩
  | succ i =>
    have hi : i < s.length := by omega
    refine ⟨.shortRead, ?_⟩
    rw [List.take_succ_cons]
    simp only [readStringU8, readU8Len_cons s.length (s.take i) h]
    rw [if_neg (show ¬ (s.length = 0) by omega)]
    unfold readFull
    rw [if_neg (show ¬ (s.length ≤ (s.take i).length) by
      simp only [List.length_take]; omega)]

theorem readU16Len_chunk (n : Nat) (rest : List Nat) (h : n ≤ 65535) :
    readU16Len (writeU16 n ++ rest) = .ok (n, rest) := by
  unfold writeU16 readU16Len readU16
  simp only [List.cons_append, List.nil_append]
  rw [Nat.mod_eq_of_lt (show n < 65536 by omega)]
  have hn : n / 256 * 256 + n % 256 = n := by
    rw [Nat.mul_comm]; exact Nat.div_add_mod n 256
  simp only [hn, gt_iff_lt]
  rw [if_neg (by simp only [BytesInKilobyte]; omega)]

/-- `readBytesU16` consumes exactly its length-prefixed chunk. -/
theorem readBytesU16_chunk (p rest : List Nat) (h : p.length ≤ 65535) :
    readBytesU16 (writeU16 p.length ++ (p ++ rest)) = .ok (p, rest) := by
  simp only [readBytesU16, readU16Len_chunk p.length (p ++ rest) h]
  by_cases hp : p.length = 0
  · obtain rfl : p = [] := List.eq_nil_of_length_eq_zero hp
    simp
  · rw [if_neg hp]
    unfold readFull
    rw [if_pos (by simp)]
    rw [List.take_left, List.drop_left]

/-- `readBytesU16` fails on every strict prefix of a length-prefixed chunk. -/
theorem readBytesU16_trunc (p : List Nat) (h : p.length ≤ 65535) (j : Nat)
    (hj : j < p.length + 2) :
    ∃ e, readBytesU16 ((writeU16 p.length ++ p).take j) = .error e := by
  match j, hj with
  | 0, _ => exact ⟨.eof, rfl⟩
  | 1, _ => exact ⟨.eof, rfl⟩
  | Nat.succ (Nat.succ i), hj =>
    have hi : i < p.length := by omega
    refine ⟨.shortRead, ?_⟩
    have hsplit : ((writeU16 p.length ++ p).take (i + 2))
        = writeU16 p.length ++ p.take i := by
      rw [take_append_ge _ _ _ (by simp [writeU16])]
      simp [writeU16]
    rw [hsplit]
    simp only [readBytesU16, readU16Len_chunk p.length (p.take i) h]
    rw [if_neg (show ¬ (p.length = 0) by omega)]
    unfold readFull
    rw [if_neg (show ¬ (p.length ≤ (p.take i).length) by
      simp only [List.length_take]; omega)]

/-! ## Stage lemmas: exact consumption of encoded chunks -/

theorem parseBaseHeader_chunk (o c a : Nat) (rest : List Nat) (cmd : Object) :
    parseBaseHeader (o :: c :: a :: rest) cmd
      = .ok ({ cmd with objType := o, cmdType := c, ackPlcy := a }, rest) := rfl

theorem parseTrackingHeader_chunk (u rest : List Nat) (cmd : Object)
    (hu : u ≠ []) (hul : u.length ≤ 255) :
    parseTrackingHeader (u.length :: (u ++ rest)) cmd
      = .ok ({ cmd with uid := u }, rest) := by
  simp only [parseTrackingHeader, readStringU8_chunk u rest hul]
  rw [if_neg hu]

theorem parseArgumentFields_chunk (g1 g2 g3 g4 rest : List Nat) (cmd : Object)
    (rsp : ConnResponder) (hresp : cmd.responder = some rsp)
    (h1 : g1.length ≤ 255) (h2 : g2.length ≤ 255)
    (h3 : g3.length ≤ 255) (h4 : g4.length ≤ 255) :
    parseArgumentFields
      (g1.length :: (g1 ++ g2.length :: (g2 ++ g3.length :: (g3 ++ g4.length :: (g4 ++ rest)))))
      cmd
      = .ok ({ cmd with arg1 := g1, arg2 := g2, arg3 := g3, arg4 := g4 }, rest) := by
  simp only [parseArgumentFields, hresp, readStringU8_chunk _ _ h1,
    readStringU8_chunk _ _ h2, readStringU8_chunk _ _ h3, readStringU8_chunk _ _ h4]

theorem parsePayloadEncoding_chunk (e : Nat) (rest : List Nat) (cmd : Object) :
    parsePayloadEncoding (e :: rest) cmd
      = .ok ({ cmd with payloadEncoding := e }, rest) := rfl

/-! ## Stage lemmas: panic and success inversion -/

theorem parseBaseHeader_no_panic (l : List Nat) (cmd : Object) :
    parseBaseHeader l cmd ≠ .nilPanic := by
  intro h
  unfold parseBaseHeader at h
  split at h
  · cases h
  · split at h
    · cases h
    · split at h
      · cases h
      · cases h

theorem parseBaseHeader_ok {l : List Nat} {cmd x : Object} {l2 : List Nat}
    (h : parseBaseHeader l cmd = .ok (x, l2)) :
    x.responder = cmd.responder ∧ x.uid = cmd.uid := by
  unfold parseBaseHeader at h
  split at h
  · cases h
  · split at h
    · cases h
    · split at h
      · cases h
      · cases h
        exact ⟨rfl, rfl⟩

theorem parseTrackingHeader_panic {l : List Nat} {cmd : Object}
    (h : parseTrackingHeader l cmd = .nilPanic) :
    cmd.responder = none := by
  unfold parseTrackingHeader at h
  split at h
  · cases h
  · split at h
    · split at h
      · rename_i heq
        exact heq
      · cases h
    · cases h

theorem parseTrackingHeader_ok {l : List Nat} {cmd x : Object} {l2 : List Nat}
    (h : parseTrackingHeader l cmd = .ok (x, l2)) :
    x.responder = cmd.responder ∧ x.uid ≠ [] := by
  unfold parseTrackingHeader at h
  split at h
  · cases h
  · split at h
    · split at h <;> cases h
    · rename_i hu
      cases h
      exact ⟨rfl, hu⟩

theorem parseArgumentFields_panic {l : List Nat} {cmd : Object}
    (h : parseArgumentFields l cmd = .nilPanic) :
    cmd.responder = none := by
  unfold parseArgumentFields at h
  split at h
  · rename_i heq
    exact heq
  · split at h
    · cases h
    · split at h
      · cases h
      · split at h
        · cases h
        · split at h
          · cases h
          · cases h

theorem parseArgumentFields_ok {l : List Nat} {cmd x : Object} {l2 : List Nat}
    (h : parseArgumentFields l cmd = .ok (x, l2)) :
    x.responder = cmd.responder ∧ x.uid = cmd.uid := by
  unfold parseArgumentFields at h
  split at h
  · cases h
  · split at h
    · cases h
    · split at h
      · cases h
      · split at h
        · cases h
        · split at h
          · cases h
          · cases h
            exact ⟨rfl, rfl⟩

theorem parsePayloadEncoding_panic {l : List Nat} {cmd : Object}
    (h : parsePayloadEncoding l cmd = .nilPanic) :
    cmd.responder = none := by
  unfold parsePayloadEncoding at h
  split at h
  · split at h
    · rename_i heq
      exact heq
    · cases h
  · cases h

theorem parsePayloadEncoding_ok {l : List Nat} {cmd x : Object} {l2 : List Nat}
    (h : parsePayloadEncoding l cmd = .ok (x, l2)) :
    x.responder = cmd.responder ∧ x.uid = cmd.uid := by
  unfold parsePayloadEncoding at h
  split at h
  · split at h <;> cases h
  · cases h
    exact ⟨rfl, rfl⟩

/-- `decodeV1` panics only when the object carries no responder. -/
theorem decodeV1_panic {l : List Nat} {cmd : Object}
    (h : decodeV1 l cmd = .nilPanic) :
    cmd.responder = none := by
  unfold decodeV1 at h
  split at h
  · cases h
  · rename_i heq
    exact absurd heq (parseBaseHeader_no_panic _ _)
  · rename_i obj1 l1 heq
    split at h
    · cases h
    · rename_i heq2
      rw [← (parseBaseHeader_ok heq).1]
      exact parseTrackingHeader_panic heq2
    · rename_i obj2 l2 heq2
      split at h
      · cases h
      · rename_i heq3
        rw [← (parseBaseHeader_ok heq).1, ← (parseTrackingHeader_ok heq2).1]
        exact parseArgumentFields_panic heq3
      · rename_i obj3 l3 heq3
        split at h
        · cases h
        · rename_i heq4
          rw [← (parseBaseHeader_ok heq).1, ← (parseTrackingHeader_ok heq2).1,
            ← (parseArgumentFields_ok heq3).1]
          exact parsePayloadEncoding_panic heq4
        · rename_i obj4 l4 heq4
          split at h
          · split at h
            · rename_i hr
              rw [← (parseBaseHeader_ok heq).1, ← (parseTrackingHeader_ok heq2).1,
                ← (parseArgumentFields_ok heq3).1, ← (parsePayloadEncoding_ok heq4).1]
              exact hr
            · cases h
          · split at h
            · cases h
            · cases h

/-- A successful `decodeV1` preserves the responder and yields a non-empty
uid. -/
theorem decodeV1_ok_inv {l : List Nat} {cmd x : Object}
    (h : decodeV1 l cmd = .ok x) :
    x.responder = cmd.responder ∧ x.uid ≠ [] := by
  unfold decodeV1 at h
  split at h
  · cases h
  · cases h
  · rename_i obj1 l1 heq
    split at h
    · cases h
    · cases h
    · rename_i obj2 l2 heq2
      split at h
      · cases h
      · cases h
      · rename_i obj3 l3 heq3
        split at h
        · cases h
        · cases h
        · rename_i obj4 l4 heq4
          split at h
          · split at h <;> cases h
          · split at h
            · cases h
            · cases h
              constructor
              · show obj4.responder = cmd.responder
                rw [(parsePayloadEncoding_ok heq4).1, (parseArgumentFields_ok heq3).1,
                  (parseTrackingHeader_ok heq2).1, (parseBaseHeader_ok heq).1]
              · show obj4.uid ≠ []
                rw [(parsePayloadEncoding_ok heq4).2, (parseArgumentFields_ok heq3).2]
                exact (parseTrackingHeader_ok heq2).2

/-- `DecodeFrame` with a responder attached never panics. -/
theorem DecodeFrame_no_panic (l : List Nat) (rsp : ConnResponder) :
    DecodeFrame l (some rsp) ≠ .nilPanic := by
  intro h
  unfold DecodeFrame at h
  split at h
  · cases h
  · split at h
    · have := decodeV1_panic h
      simp at this
    · cases h

/-- Every object successfully produced by `DecodeFrame` has a non-empty uid. -/
theorem DecodeFrame_ok_uid {l : List Nat} {resp : Option ConnResponder}
    {obj2 : Object} (h : DecodeFrame l resp = .ok obj2) :
    obj2.uid ≠ [] := by
  unfold DecodeFrame at h
  split at h
  · cases h
  · split at h
    · exact (decodeV1_ok_inv h).2
    · cases h

/-! ## The encoded frame, and decoding it back -/

/-- Under the encoder's own validation bounds, `encodeV1` succeeds and its
output is the concatenation of the documented chunks. -/
theorem encodeV1_eq (obj : Object) (hu : obj.uid ≠ []) (hul : obj.uid.length ≤ 255)
    (h1 : obj.arg1.length ≤ 255) (h2 : obj.arg2.length ≤ 255)
    (h3 : obj.arg3.length ≤ 255) (h4 : obj.arg4.length ≤ 255)
    (hp : obj.payload.length ≤ 65535) :
    encodeV1 obj = .ok (ProtocolV1 :: obj.objType :: obj.cmdType :: obj.ackPlcy ::
      ((obj.uid.length :: obj.uid) ++ (obj.arg1.length :: obj.arg1) ++
       (obj.arg2.length :: obj.arg2) ++ (obj.arg3.length :: obj.arg3) ++
       (obj.arg4.length :: obj.arg4) ++
       obj.payloadEncoding :: (writeU16 obj.payload.length ++ obj.payload))) := by
  have hcu : ¬ (obj.uid.length > 255) := by omega
  have hc1 : ¬ (obj.arg1.length > 255) := by omega
  have hc2 : ¬ (obj.arg2.length > 255) := by omega
  have hc3 : ¬ (obj.arg3.length > 255) := by omega
  have hc4 : ¬ (obj.arg4.length > 255) := by omega
  have hcp : ¬ (obj.payload.length > 64 * BytesInKilobyte - 1) := by
    simp only [BytesInKilobyte]; omega
  simp only [encodeV1, writeString8, if_neg hu, if_neg hcp, if_neg hcu,
    if_neg hc1, if_neg hc2, if_neg hc3, if_neg hc4]

/-- `EncodeFrame` on a version-1 object is `encodeV1`. -/
theorem EncodeFrame_v1 (obj : Object) (hv : obj.version = 1) :
    EncodeFrame obj = encodeV1 obj := by
  unfold EncodeFrame
  rw [hv]

/-- `DecodeFrame` on a version-1 frame runs `decodeV1` on the rest with the
freshly initialised object. -/
theorem DecodeFrame_cons_one (body : List Nat) (resp : Option ConnResponder) :
    DecodeFrame (1 :: body) resp = decodeV1 body
      { version := 1, responder := resp, response := none, objType := 0, cmdType := 0,
        ackPlcy := 0, uid := [], arg1 := [], arg2 := [], arg3 := [], arg4 := [],
        payloadEncoding := 0, payload := [] } := rfl

/-- Running `decodeV1` over a well-formed encoded body followed by `rest`
consumes every chunk and then either succeeds (`rest = []`) or reports
trailing data. -/
theorem decodeV1_full (cmd : Object) (rsp : ConnResponder) (hresp : cmd.responder = some rsp)
    (o c a e : Nat) (u g1 g2 g3 g4 p rest : List Nat)
    (hu : u ≠ []) (hul : u.length ≤ 255)
    (h1 : g1.length ≤ 255) (h2 : g2.length ≤ 255)
    (h3 : g3.length ≤ 255) (h4 : g4.length ≤ 255)
    (hp : p.length ≤ 65535) :
    decodeV1 (o :: c :: a :: u.length :: (u ++ g1.length :: (g1 ++ g2.length :: (g2 ++
        g3.length :: (g3 ++ g4.length :: (g4 ++
          e :: (writeU16 p.length ++ (p ++ rest)))))))) cmd
      = if rest = [] then
          .ok { cmd with
            objType := o, cmdType := c, ackPlcy := a, uid := u,
            arg1 := g1, arg2 := g2, arg3 := g3, arg4 := g4,
            payloadEncoding := e, payload := p,
            response := some { ack := AckUnknown, uid := u } }
        else .err .trailingData := by
  have hrespB : (({ { cmd with objType := o, cmdType := c, ackPlcy := a } with
      uid := u } : Object)).responder = some rsp := hresp
  unfold decodeV1
  simp only [parseBaseHeader_chunk, parseTrackingHeader_chunk _ _ _ hu hul,
    parseArgumentFields_chunk g1 g2 g3 g4 _ _ rsp hrespB h1 h2 h3 h4,
    parsePayloadEncoding_chunk, readBytesU16_chunk p rest hp]
  by_cases hr : rest = []
  · subst hr
    simp
  · rw [if_pos (by simpa using hr), if_neg hr]

/-- Exact-frame corollary of `decodeV1_full`. -/
theorem decodeV1_exact (cmd : Object) (rsp : ConnResponder) (hresp : cmd.responder = some rsp)
    (o c a e : Nat) (u g1 g2 g3 g4 p : List Nat)
    (hu : u ≠ []) (hul : u.length ≤ 255)
    (h1 : g1.length ≤ 255) (h2 : g2.length ≤ 255)
    (h3 : g3.length ≤ 255) (h4 : g4.length ≤ 255)
    (hp : p.length ≤ 65535) :
    decodeV1 (o :: c :: a :: u.length :: (u ++ g1.length :: (g1 ++ g2.length :: (g2 ++
        g3.length :: (g3 ++ g4.length :: (g4 ++
          e :: (writeU16 p.length ++ p))))))) cmd
      = .ok { cmd with
          objType := o, cmdType := c, ackPlcy := a, uid := u,
          arg1 := g1, arg2 := g2, arg3 := g3, arg4 := g4,
          payloadEncoding := e, payload := p,
          response := some { ack := AckUnknown, uid := u } } := by
  have h := decodeV1_full cmd rsp hresp o c a e u g1 g2 g3 g4 p [] hu hul h1 h2 h3 h4 hp
  rw [List.append_nil] at h
  simpa using h

/-! ## Truncation: every strict prefix of a frame fails to decode -/

theorem readStringU8_chunkA (s rest : List Nat) (h : s.length ≤ 255) :
    readStringU8 ((s.length :: s) ++ rest) = .ok (s, rest) := by
  rw [List.cons_append]
  exact readStringU8_chunk s rest h

theorem parseTrackingHeader_chunkA (u rest : List Nat) (cmd : Object)
    (hu : u ≠ []) (hul : u.length ≤ 255) :
    parseTrackingHeader ((u.length :: u) ++ rest) cmd
      = .ok ({ cmd with uid := u }, rest) := by
  rw [List.cons_append]
  exact parseTrackingHeader_chunk u rest cmd hu hul

theorem parseArgumentFields_chunkA (g1 g2 g3 g4 rest : List Nat) (cmd : Object)
    (rsp : ConnResponder) (hresp : cmd.responder = some rsp)
    (h1 : g1.length ≤ 255) (h2 : g2.length ≤ 255)
    (h3 : g3.length ≤ 255) (h4 : g4.length ≤ 255) :
    parseArgumentFields ((g1.length :: g1) ++ ((g2.length :: g2) ++ ((g3.length :: g3) ++
      ((g4.length :: g4) ++ rest)))) cmd
      = .ok ({ cmd with arg1 := g1, arg2 := g2, arg3 := g3, arg4 := g4 }, rest) := by
  simp only [List.cons_append]
  exact parseArgumentFields_chunk g1 g2 g3 g4 rest cmd rsp hresp h1 h2 h3 h4

theorem parseTrackingHeader_trunc (u : List Nat) (hul : u.length ≤ 255) (cmd : Object)
    (j : Nat) (hj : j < u.length + 1) :
    ∃ er, parseTrackingHeader ((u.length :: u).take j) cmd = .err er := by
  obtain ⟨e, he⟩ := readStringU8_trunc u hul j hj
  exact ⟨.uidRead e, by simp only [parseTrackingHeader, he]⟩

/-- Truncating inside the four-argument region makes `parseArgumentFields`
fail, whatever would have followed the region. -/
theorem parseArgumentFields_truncA (cmd : Object) (rsp : ConnResponder)
    (hresp : cmd.responder = some rsp) (g1 g2 g3 g4 tail : List Nat)
    (h1 : g1.length ≤ 255) (h2 : g2.length ≤ 255)
    (h3 : g3.length ≤ 255) (h4 : g4.length ≤ 255) (j : Nat)
    (hj : j < (g1.length + 1) + (g2.length + 1) + (g3.length + 1) + (g4.length + 1)) :
    ∃ er, parseArgumentFields (((g1.length :: g1) ++ ((g2.length :: g2) ++
      ((g3.length :: g3) ++ ((g4.length :: g4) ++ tail)))).take j) cmd = .err er := by
  rcases Nat.lt_or_ge j (g1.length + 1) with hA | hA
  · rw [take_append_le _ _ _ (by simp only [List.length_cons]; omega)]
    obtain ⟨e, he⟩ := readStringU8_trunc g1 h1 j hA
    exact ⟨.argRead 1 rsp.remoteAddr e, by simp only [parseArgumentFields, hresp, he]⟩
  · rw [take_append_ge _ _ _ (by simp only [List.length_cons]; omega)]
    simp only [List.length_cons]
    rcases Nat.lt_or_ge (j - (g1.length + 1)) (g2.length + 1) with hB | hB
    · rw [take_append_le _ _ _ (by simp only [List.length_cons]; omega)]
      obtain ⟨e, he⟩ := readStringU8_trunc g2 h2 _ hB
      exact ⟨.argRead 2 rsp.remoteAddr e,
        by simp only [parseArgumentFields, hresp, readStringU8_chunkA g1 _ h1, he]⟩
    · rw [take_append_ge _ _ _ (by simp only [List.length_cons]; omega)]
      simp only [List.length_cons]
      rcases Nat.lt_or_ge (j - (g1.length + 1) - (g2.length + 1)) (g3.length + 1) with hC | hC
      · rw [take_append_le _ _ _ (by simp only [List.length_cons]; omega)]
        obtain ⟨e, he⟩ := readStringU8_trunc g3 h3 _ hC
        exact ⟨.argRead 3 rsp.remoteAddr e,
          by simp only [parseArgumentFields, hresp, readStringU8_chunkA g1 _ h1,
            readStringU8_chunkA g2 _ h2, he]⟩
      · rw [take_append_ge _ _ _ (by simp only [List.length_cons]; omega)]
        simp only [List.length_cons]
        have hD : j - (g1.length + 1) - (g2.length + 1) - (g3.length + 1) < g4.length + 1 := by
          omega
        rw [take_append_le _ _ _ (by simp only [List.length_cons]; omega)]
        obtain ⟨e, he⟩ := readStringU8_trunc g4 h4 _ hD
        exact ⟨.argRead 4 rsp.remoteAddr e,
          by simp only [parseArgumentFields, hresp, readStringU8_chunkA g1 _ h1,
            readStringU8_chunkA g2 _ h2, readStringU8_chunkA g3 _ h3, he]⟩

/-- Truncating a well-formed version-1 body anywhere strictly before its end
makes `decodeV1` return an error. -/
theorem decodeV1_trunc (cmd : Object) (rsp : ConnResponder) (hresp : cmd.responder = some rsp)
    (o c a e : Nat) (u g1 g2 g3 g4 p : List Nat)
    (hu : u ≠ []) (hul : u.length ≤ 255)
    (h1 : g1.length ≤ 255) (h2 : g2.length ≤ 255)
    (h3 : g3.length ≤ 255) (h4 : g4.length ≤ 255)
    (hp : p.length ≤ 65535) (j : Nat)
    (hj : j < 3 + (u.length + 1) + (g1.length + 1) + (g2.length + 1) + (g3.length + 1)
      + (g4.length + 1) + 1 + (2 + p.length)) :
    ∃ er, decodeV1 ((o :: c :: a :: ((u.length :: u) ++ ((g1.length :: g1) ++
      ((g2.length :: g2) ++ ((g3.length :: g3) ++ ((g4.length :: g4) ++
        (e :: (writeU16 p.length ++ p)))))))).take j) cmd = .err er := by
  rcases j with _ | _ | _ | j
  · exact ⟨.objTypeRead, rfl⟩
  · exact ⟨.cmdTypeRead, rfl⟩
  · exact ⟨.ackPolicyRead, rfl⟩
  · simp only [List.take_succ_cons]
    unfold decodeV1
    simp only [parseBaseHeader_chunk]
    rcases Nat.lt_or_ge j (u.length + 1) with hA | hA
    · rw [take_append_le _ _ _ (by simp only [List.length_cons]; omega)]
      obtain ⟨er, ht⟩ := parseTrackingHeader_trunc u hul
        { cmd with objType := o, cmdType := c, ackPlcy := a } j hA
      exact ⟨er, by simp only [ht]⟩
    · rw [take_append_ge _ _ _ (by simp only [List.length_cons]; omega)]
      simp only [List.length_cons, parseTrackingHeader_chunkA _ _ _ hu hul]
      have hrespB : (({ { cmd with objType := o, cmdType := c, ackPlcy := a } with
          uid := u } : Object)).responder = some rsp := hresp
      rcases Nat.lt_or_ge (j - (u.length + 1))
          ((g1.length + 1) + (g2.length + 1) + (g3.length + 1) + (g4.length + 1)) with hB | hB
      · obtain ⟨er, ha⟩ :=
          parseArgumentFields_truncA
            { { cmd with objType := o, cmdType := c, ackPlcy := a } with uid := u }
            rsp hrespB g1 g2 g3 g4 (e :: (writeU16 p.length ++ p)) h1 h2 h3 h4
            (j - (u.length + 1)) hB
        exact ⟨er, by simp only [ha]⟩
      · rw [take_append_ge _ _ _ (by simp only [List.length_cons]; omega)]
        rw [take_append_ge _ _ _ (by simp only [List.length_cons]; omega)]
        rw [take_append_ge _ _ _ (by simp only [List.length_cons]; omega)]
        rw [take_append_ge _ _ _ (by simp only [List.length_cons]; omega)]
        simp only [List.length_cons,
          parseArgumentFields_chunkA g1 g2 g3 g4 _ _ rsp hrespB h1 h2 h3 h4]
        rcases Nat.lt_or_ge
            (j - (u.length + 1) - (g1.length + 1) - (g2.length + 1) - (g3.length + 1)
              - (g4.length + 1)) 1 with hE | hE
        · have h0 : j - (u.length + 1) - (g1.length + 1) - (g2.length + 1) - (g3.length + 1)
              - (g4.length + 1) = 0 := by omega
          exact ⟨.payloadEncodingRead rsp.remoteAddr,
            by simp only [h0, List.take_zero, parsePayloadEncoding, readU8, hresp]⟩
        · obtain ⟨i, hi⟩ : ∃ i, j - (u.length + 1) - (g1.length + 1) - (g2.length + 1)
              - (g3.length + 1) - (g4.length + 1) = i + 1 :=
            ⟨j - (u.length + 1) - (g1.length + 1) - (g2.length + 1) - (g3.length + 1)
              - (g4.length + 1) - 1, by omega⟩
          obtain ⟨e2, hbe⟩ := readBytesU16_trunc p hp i (by omega)
          exact ⟨.payloadRead rsp.remoteAddr e2,
            by simp only [hi, List.take_succ_cons, parsePayloadEncoding_chunk, hbe, hresp]⟩

/-! ## Claim theorems -/

/-- A concrete valid version-1 object used by witnesses. -/
def sampleObj : Object :=
  { version := 1, responder := none, response := none,
    objType := 2, cmdType := 3, ackPlcy := 1, uid := [117],
    arg1 := [65], arg2 := [], arg3 := [66, 67], arg4 := [],
    payloadEncoding := 1, payload := [9, 8] }

/-- A concrete responder used by witnesses. -/
def sampleResponder : ConnResponder := ⟨"remote:1", "local:1"⟩

/-- Shared helper: encode-then-decode round-trip over every field, used by
several boundary results below. -/
theorem roundtrip_aux (obj : Object) (rsp : ConnResponder)
    (hv : obj.version = 1) (hu : obj.uid ≠ []) (hul : obj.uid.length ≤ 255)
    (h1 : obj.arg1.length ≤ 255) (h2 : obj.arg2.length ≤ 255)
    (h3 : obj.arg3.length ≤ 255) (h4 : obj.arg4.length ≤ 255)
    (hp : obj.payload.length ≤ 65535) :
    ∃ frame obj2, EncodeFrame obj = .ok frame ∧
      DecodeFrame frame (some rsp) = .ok obj2 ∧
      obj2.version = obj.version ∧ obj2.objType = obj.objType ∧
      obj2.cmdType = obj.cmdType ∧ obj2.ackPlcy = obj.ackPlcy ∧
      obj2.uid = obj.uid ∧ obj2.arg1 = obj.arg1 ∧ obj2.arg2 = obj.arg2 ∧
      obj2.arg3 = obj.arg3 ∧ obj2.arg4 = obj.arg4 ∧
      obj2.payloadEncoding = obj.payloadEncoding ∧
      obj2.payload = obj.payload := by
  have henc : EncodeFrame obj = .ok (ProtocolV1 :: obj.objType :: obj.cmdType :: obj.ackPlcy ::
      ((obj.uid.length :: obj.uid) ++ (obj.arg1.length :: obj.arg1) ++
       (obj.arg2.length :: obj.arg2) ++ (obj.arg3.length :: obj.arg3) ++
       (obj.arg4.length :: obj.arg4) ++
       obj.payloadEncoding :: (writeU16 obj.payload.length ++ obj.payload))) := by
    rw [EncodeFrame_v1 obj hv]
    exact encodeV1_eq obj hu hul h1 h2 h3 h4 hp
  refine ⟨_,
    Object.mk 1 (some rsp) (some ⟨AckUnknown, obj.uid⟩) obj.objType obj.cmdType
      obj.ackPlcy obj.uid obj.arg1 obj.arg2 obj.arg3 obj.arg4
      obj.payloadEncoding obj.payload,
    henc, ?_, hv.symm, rfl, rfl, rfl, rfl, rfl, rfl, rfl, rfl, rfl, rfl⟩
  simp only [ProtocolV1]
  rw [DecodeFrame_cons_one]
  simp only [List.cons_append, List.append_assoc]
  exact decodeV1_exact _ rsp rfl obj.objType obj.cmdType obj.ackPlcy obj.payloadEncoding
    obj.uid obj.arg1 obj.arg2 obj.arg3 obj.arg4 obj.payload hu hul h1 h2 h3 h4 hp

/-- C1: for every Message Object with version 1, a non-empty uid of at most
255 encoded bytes, each of the four args at most 255 encoded bytes, and a
payload of at most 65535 bytes, decoding the encoding of the object
(`EncodeFrame` then `DecodeFrame`) succeeds and returns an object whose
version, obj_type, cmd_type, ack_policy, uid, arg1..arg4, payload_encoding
and payload all equal those of the original object. -/
theorem encode_decode_roundtrip (obj : Object) (rsp : ConnResponder)
    (hv : obj.version = 1) (hu : obj.uid ≠ []) (hul : obj.uid.length ≤ 255)
    (h1 : obj.arg1.length ≤ 255) (h2 : obj.arg2.length ≤ 255)
    (h3 : obj.arg3.length ≤ 255) (h4 : obj.arg4.length ≤ 255)
    (hp : obj.payload.length ≤ 65535) :
    ∃ frame obj2, EncodeFrame obj = .ok frame ∧
      DecodeFrame frame (some rsp) = .ok obj2 ∧
      obj2.version = obj.version ∧ obj2.objType = obj.objType ∧
      obj2.cmdType = obj.cmdType ∧ obj2.ackPlcy = obj.ackPlcy ∧
      obj2.uid = obj.uid ∧ obj2.arg1 = obj.arg1 ∧ obj2.arg2 = obj.arg2 ∧
      obj2.arg3 = obj.arg3 ∧ obj2.arg4 = obj.arg4 ∧
      obj2.payloadEncoding = obj.payloadEncoding ∧
      obj2.payload = obj.payload :=
  roundtrip_aux obj rsp hv hu hul h1 h2 h3 h4 hp

/-- Witness for C1 at a concrete object and responder. -/
theorem encode_decode_roundtrip_witness :
    ∃ frame obj2, EncodeFrame sampleObj = .ok frame ∧
      DecodeFrame frame (some sampleResponder) = .ok obj2 ∧
      obj2.version = sampleObj.version ∧ obj2.objType = sampleObj.objType ∧
      obj2.cmdType = sampleObj.cmdType ∧ obj2.ackPlcy = sampleObj.ackPlcy ∧
      obj2.uid = sampleObj.uid ∧ obj2.arg1 = sampleObj.arg1 ∧
      obj2.arg2 = sampleObj.arg2 ∧ obj2.arg3 = sampleObj.arg3 ∧
      obj2.arg4 = sampleObj.arg4 ∧
      obj2.payloadEncoding = sampleObj.payloadEncoding ∧
      obj2.payload = sampleObj.payload :=
  encode_decode_roundtrip sampleObj sampleResponder rfl (by decide) (by decide)
    (by decide) (by decide) (by decide) (by decide) (by decide)

/-- C5: encoding the response with uid "abc" (bytes 0x61 0x62 0x63) and ack 1
produces exactly the seven bytes 0x00 0x05 0x03 0x61 0x62 0x63 0x01: a
big-endian u16 body length of 5, a u8 uid length of 3, the three uid bytes,
then the ack byte. -/
theorem encode_response_determinism :
    EncodeResponseV1 { ack := 1, uid := [97, 98, 99] } = [0, 5, 3, 97, 98, 99, 1] := by
  decide

/-- C9: `EncodeResponseV1` never reports failure: for every Response whose
uid exceeds 255 encoded bytes, the error from writing the uid is silently
discarded and the function returns a frame whose body contains only the ack
byte (big-endian u16 length prefix 0x00 0x01 followed by the ack), with the
uid entirely absent. -/
theorem encode_response_v1_oversize_uid (uid : List Nat) (ack : Nat)
    (h : uid.length > 255) :
    EncodeResponseV1 { ack := ack, uid := uid } = [0, 1, ack] := by
  unfold EncodeResponseV1 writeString8
  rw [if_pos h]
  simp [writeU16]

/-- Witness for C9 at a concrete 256-byte uid. -/
theorem encode_response_v1_oversize_uid_witness :
    EncodeResponseV1 { ack := 7, uid := List.replicate 256 120 } = [0, 1, 7] :=
  encode_response_v1_oversize_uid (List.replicate 256 120) 7
    (by rw [List.length_replicate]; omega)

theorem writeU16_length (n : Nat) : (writeU16 n).length = 2 := rfl

/-- C2: for every valid encoded frame (produced by `EncodeFrame` from a valid
version-1 object) and every strict prefix of it, including the empty prefix,
`DecodeFrame` applied to that prefix with a responder attached returns an
error — never a panic, never a partially populated object. -/
theorem truncated_frame_decode_errors (obj : Object) (rsp : ConnResponder)
    (hv : obj.version = 1) (hu : obj.uid ≠ []) (hul : obj.uid.length ≤ 255)
    (h1 : obj.arg1.length ≤ 255) (h2 : obj.arg2.length ≤ 255)
    (h3 : obj.arg3.length ≤ 255) (h4 : obj.arg4.length ≤ 255)
    (hp : obj.payload.length ≤ 65535) (frame : List Nat)
    (hf : EncodeFrame obj = .ok frame) (k : Nat) (hk : k < frame.length) :
    ∃ er, DecodeFrame (frame.take k) (some rsp) = .err er := by
  rw [EncodeFrame_v1 obj hv, encodeV1_eq obj hu hul h1 h2 h3 h4 hp] at hf
  injection hf with hfr
  subst hfr
  rcases k with _ | k
  · exact ⟨.versionRead, rfl⟩
  · have hk2 : k < 3 + (obj.uid.length + 1) + (obj.arg1.length + 1) + (obj.arg2.length + 1)
        + (obj.arg3.length + 1) + (obj.arg4.length + 1) + 1 + (2 + obj.payload.length) := by
      simp only [List.length_cons, List.length_append, writeU16_length] at hk
      omega
    simp only [ProtocolV1, List.take_succ_cons]
    rw [DecodeFrame_cons_one]
    simp only [List.append_assoc]
    exact decodeV1_trunc _ rsp rfl obj.objType obj.cmdType obj.ackPlcy obj.payloadEncoding
      obj.uid obj.arg1 obj.arg2 obj.arg3 obj.arg4 obj.payload hu hul h1 h2 h3 h4 hp k hk2

/-- Witness for C2: a strict prefix of the sample object's frame fails. -/
theorem truncated_frame_decode_errors_witness :
    ∃ er, DecodeFrame
      (([1, 2, 3, 1, 1, 117, 1, 65, 0, 2, 66, 67, 0, 1, 0, 2, 9, 8] : List Nat).take 3)
      (some sampleResponder) = .err er :=
  truncated_frame_decode_errors sampleObj sampleResponder rfl (by decide) (by decide)
    (by decide) (by decide) (by decide) (by decide) (by decide)
    [1, 2, 3, 1, 1, 117, 1, 65, 0, 2, 66, 67, 0, 1, 0, 2, 9, 8] rfl 3 (by decide)

/-- C3: for every valid encoded frame and every non-empty byte sequence
appended after it, `DecodeFrame` on the concatenation fails with the
trailing-data error and returns no object. -/
theorem trailing_data_rejected (obj : Object) (rsp : ConnResponder)
    (hv : obj.version = 1) (hu : obj.uid ≠ []) (hul : obj.uid.length ≤ 255)
    (h1 : obj.arg1.length ≤ 255) (h2 : obj.arg2.length ≤ 255)
    (h3 : obj.arg3.length ≤ 255) (h4 : obj.arg4.length ≤ 255)
    (hp : obj.payload.length ≤ 65535) (frame extra : List Nat)
    (hf : EncodeFrame obj = .ok frame) (hx : extra ≠ []) :
    DecodeFrame (frame ++ extra) (some rsp) = .err .trailingData := by
  rw [EncodeFrame_v1 obj hv, encodeV1_eq obj hu hul h1 h2 h3 h4 hp] at hf
  injection hf with hfr
  subst hfr
  simp only [ProtocolV1, List.cons_append, List.append_assoc]
  rw [DecodeFrame_cons_one]
  rw [decodeV1_full _ rsp rfl obj.objType obj.cmdType obj.ackPlcy obj.payloadEncoding
    obj.uid obj.arg1 obj.arg2 obj.arg3 obj.arg4 obj.payload extra hu hul h1 h2 h3 h4 hp]
  rw [if_neg hx]

/-- Witness for C3: one extra byte after the sample frame is rejected. -/
theorem trailing_data_rejected_witness :
    DecodeFrame (([1, 2, 3, 1, 1, 117, 1, 65, 0, 2, 66, 67, 0, 1, 0, 2, 9, 8] : List Nat)
      ++ [255]) (some sampleResponder) = .err .trailingData :=
  trailing_data_rejected sampleObj sampleResponder rfl (by decide) (by decide)
    (by decide) (by decide) (by decide) (by decide) (by decide)
    [1, 2, 3, 1, 1, 117, 1, 65, 0, 2, 66, 67, 0, 1, 0, 2, 9, 8] [255]
    rfl (by decide)

theorem replicate_ne_nil (n b : Nat) (h : 0 < n) : List.replicate n b ≠ [] := by
  intro he
  have hl : (List.replicate n b).length = n := List.length_replicate ..
  rw [he] at hl
  simp only [List.length_nil] at hl
  omega

/-- `encodeV1` rejects an oversize uid with a string-too-long error. -/
theorem encodeV1_uid_too_long (obj : Object) (hu : obj.uid ≠ [])
    (hp : obj.payload.length ≤ 65535) (h : obj.uid.length > 255) :
    encodeV1 obj = .error (.stringTooLong .uid obj.uid.length) := by
  simp only [encodeV1, writeString8, if_neg hu,
    if_neg (show ¬ (obj.payload.length > 64 * BytesInKilobyte - 1) by
      simp only [BytesInKilobyte]; omega),
    if_pos h]

/-- `encodeV1` rejects an oversize arg1 once the uid is within bounds. -/
theorem encodeV1_arg1_too_long (obj : Object) (hu : obj.uid ≠ [])
    (hul : obj.uid.length ≤ 255) (hp : obj.payload.length ≤ 65535)
    (h : obj.arg1.length > 255) :
    encodeV1 obj = .error (.stringTooLong .arg1 obj.arg1.length) := by
  simp only [encodeV1, writeString8, if_neg hu,
    if_neg (show ¬ (obj.payload.length > 64 * BytesInKilobyte - 1) by
      simp only [BytesInKilobyte]; omega),
    if_neg (show ¬ (obj.uid.length > 255) by omega),
    if_pos h]

/-- `encodeV1` rejects an oversize arg2 once uid and arg1 are within
bounds. -/
theorem encodeV1_arg2_too_long (obj : Object) (hu : obj.uid ≠ [])
    (hul : obj.uid.length ≤ 255) (h1 : obj.arg1.length ≤ 255)
    (hp : obj.payload.length ≤ 65535) (h : obj.arg2.length > 255) :
    encodeV1 obj = .error (.stringTooLong .arg2 obj.arg2.length) := by
  simp only [encodeV1, writeString8, if_neg hu,
    if_neg (show ¬ (obj.payload.length > 64 * BytesInKilobyte - 1) by
      simp only [BytesInKilobyte]; omega),
    if_neg (show ¬ (obj.uid.length > 255) by omega),
    if_neg (show ¬ (obj.arg1.length > 255) by omega),
    if_pos h]

/-- `encodeV1` rejects an oversize arg3 once uid, arg1 and arg2 are within
bounds. -/
theorem encodeV1_arg3_too_long (obj : Object) (hu : obj.uid ≠ [])
    (hul : obj.uid.length ≤ 255) (h1 : obj.arg1.length ≤ 255)
    (h2 : obj.arg2.length ≤ 255) (hp : obj.payload.length ≤ 65535)
    (h : obj.arg3.length > 255) :
    encodeV1 obj = .error (.stringTooLong .arg3 obj.arg3.length) := by
  simp only [encodeV1, writeString8, if_neg hu,
    if_neg (show ¬ (obj.payload.length > 64 * BytesInKilobyte - 1) by
      simp only [BytesInKilobyte]; omega),
    if_neg (show ¬ (obj.uid.length > 255) by omega),
    if_neg (show ¬ (obj.arg1.length > 255) by omega),
    if_neg (show ¬ (obj.arg2.length > 255) by omega),
    if_pos h]

/-- `encodeV1` rejects an oversize arg4 once uid and arg1..arg3 are within
bounds. -/
theorem encodeV1_arg4_too_long (obj : Object) (hu : obj.uid ≠ [])
    (hul : obj.uid.length ≤ 255) (h1 : obj.arg1.length ≤ 255)
    (h2 : obj.arg2.length ≤ 255) (h3 : obj.arg3.length ≤ 255)
    (hp : obj.payload.length ≤ 65535) (h : obj.arg4.length > 255) :
    encodeV1 obj = .error (.stringTooLong .arg4 obj.arg4.length) := by
  simp only [encodeV1, writeString8, if_neg hu,
    if_neg (show ¬ (obj.payload.length > 64 * BytesInKilobyte - 1) by
      simp only [BytesInKilobyte]; omega),
    if_neg (show ¬ (obj.uid.length > 255) by omega),
    if_neg (show ¬ (obj.arg1.length > 255) by omega),
    if_neg (show ¬ (obj.arg2.length > 255) by omega),
    if_neg (show ¬ (obj.arg3.length > 255) by omega),
    if_pos h]

/-- C6: a string field of exactly 255 bytes encodes and then decodes back to
itself — the round-trip preserves every u8-prefixed string field (uid and
arg1..arg4) whose length is at most 255, in particular exactly 255 — while
any string field of 256 or more bytes makes encoding fail with a
string-too-long error: stated once for any oversize field, and once per
field naming the field in the error, following the encoder's check order.
A payload of exactly 65535 bytes round-trips through encode and decode,
while a payload of 65536 or more bytes makes encoding fail with a
payload-too-large error. -/
theorem length_prefix_boundary :
    (∀ (obj : Object) (rsp : ConnResponder), obj.version = 1 → obj.uid ≠ [] →
      obj.uid.length ≤ 255 → obj.arg1.length ≤ 255 → obj.arg2.length ≤ 255 →
      obj.arg3.length ≤ 255 → obj.arg4.length ≤ 255 → obj.payload.length ≤ 65535 →
      ∃ frame obj2, EncodeFrame obj = .ok frame ∧
        DecodeFrame frame (some rsp) = .ok obj2 ∧
        obj2.uid = obj.uid ∧ obj2.arg1 = obj.arg1 ∧ obj2.arg2 = obj.arg2 ∧
        obj2.arg3 = obj.arg3 ∧ obj2.arg4 = obj.arg4) ∧
    (∀ obj : Object, obj.version = 1 → obj.uid ≠ [] → obj.payload.length ≤ 65535 →
      (obj.uid.length ≥ 256 ∨ obj.arg1.length ≥ 256 ∨ obj.arg2.length ≥ 256 ∨
        obj.arg3.length ≥ 256 ∨ obj.arg4.length ≥ 256) →
      ∃ f n, EncodeFrame obj = .error (.stringTooLong f n) ∧ n ≥ 256) ∧
    (∀ obj : Object, obj.version = 1 → obj.uid ≠ [] → obj.payload.length ≤ 65535 →
      obj.uid.length ≥ 256 →
      EncodeFrame obj = .error (.stringTooLong .uid obj.uid.length)) ∧
    (∀ obj : Object, obj.version = 1 → obj.uid ≠ [] → obj.uid.length ≤ 255 →
      obj.payload.length ≤ 65535 → obj.arg1.length ≥ 256 →
      EncodeFrame obj = .error (.stringTooLong .arg1 obj.arg1.length)) ∧
    (∀ obj : Object, obj.version = 1 → obj.uid ≠ [] → obj.uid.length ≤ 255 →
      obj.arg1.length ≤ 255 → obj.payload.length ≤ 65535 → obj.arg2.length ≥ 256 →
      EncodeFrame obj = .error (.stringTooLong .arg2 obj.arg2.length)) ∧
    (∀ obj : Object, obj.version = 1 → obj.uid ≠ [] → obj.uid.length ≤ 255 →
      obj.arg1.length ≤ 255 → obj.arg2.length ≤ 255 → obj.payload.length ≤ 65535 →
      obj.arg3.length ≥ 256 →
      EncodeFrame obj = .error (.stringTooLong .arg3 obj.arg3.length)) ∧
    (∀ obj : Object, obj.version = 1 → obj.uid ≠ [] → obj.uid.length ≤ 255 →
      obj.arg1.length ≤ 255 → obj.arg2.length ≤ 255 → obj.arg3.length ≤ 255 →
      obj.payload.length ≤ 65535 → obj.arg4.length ≥ 256 →
      EncodeFrame obj = .error (.stringTooLong .arg4 obj.arg4.length)) ∧
    (∀ (obj : Object) (rsp : ConnResponder), obj.version = 1 → obj.uid ≠ [] →
      obj.uid.length ≤ 255 → obj.arg1.length ≤ 255 → obj.arg2.length ≤ 255 →
      obj.arg3.length ≤ 255 → obj.arg4.length ≤ 255 → obj.payload.length = 65535 →
      ∃ frame obj2, EncodeFrame obj = .ok frame ∧
        DecodeFrame frame (some rsp) = .ok obj2 ∧ obj2.payload = obj.payload) ∧
    (∀ obj : Object, obj.version = 1 → obj.uid ≠ [] → obj.payload.length ≥ 65536 →
      EncodeFrame obj = .error (.payloadTooLarge obj.payload.length)) := by
  refine ⟨?_, ?_, ?_, ?_, ?_, ?_, ?_, ?_, ?_⟩
  · intro obj rsp hv hu hul h1 h2 h3 h4 hp
    obtain ⟨frame, obj2, he, hd, _, _, _, _, huu, ha1, ha2, ha3, ha4, _, _⟩ :=
      roundtrip_aux obj rsp hv hu hul h1 h2 h3 h4 hp
    exact ⟨frame, obj2, he, hd, huu, ha1, ha2, ha3, ha4⟩
  · intro obj hv hu hp hdisj
    rw [EncodeFrame_v1 obj hv]
    by_cases hcu : obj.uid.length > 255
    · exact ⟨.uid, obj.uid.length, encodeV1_uid_too_long obj hu hp hcu, by omega⟩
    · by_cases hc1 : obj.arg1.length > 255
      · exact ⟨.arg1, obj.arg1.length,
          encodeV1_arg1_too_long obj hu (by omega) hp hc1, by omega⟩
      · by_cases hc2 : obj.arg2.length > 255
        · exact ⟨.arg2, obj.arg2.length,
            encodeV1_arg2_too_long obj hu (by omega) (by omega) hp hc2, by omega⟩
        · by_cases hc3 : obj.arg3.length > 255
          · exact ⟨.arg3, obj.arg3.length,
              encodeV1_arg3_too_long obj hu (by omega) (by omega) (by omega) hp hc3,
              by omega⟩
          · have hc4 : obj.arg4.length > 255 := by omega
            exact ⟨.arg4, obj.arg4.length,
              encodeV1_arg4_too_long obj hu (by omega) (by omega) (by omega) (by omega)
                hp hc4, by omega⟩
  · intro obj hv hu hp h
    rw [EncodeFrame_v1 obj hv]
    exact encodeV1_uid_too_long obj hu hp (by omega)
  · intro obj hv hu hul hp h
    rw [EncodeFrame_v1 obj hv]
    exact encodeV1_arg1_too_long obj hu hul hp (by omega)
  · intro obj hv hu hul h1 hp h
    rw [EncodeFrame_v1 obj hv]
    exact encodeV1_arg2_too_long obj hu hul h1 hp (by omega)
  · intro obj hv hu hul h1 h2 hp h
    rw [EncodeFrame_v1 obj hv]
    exact encodeV1_arg3_too_long obj hu hul h1 h2 hp (by omega)
  · intro obj hv hu hul h1 h2 h3 hp h
    rw [EncodeFrame_v1 obj hv]
    exact encodeV1_arg4_too_long obj hu hul h1 h2 h3 hp (by omega)
  · intro obj rsp hv hu hul h1 h2 h3 h4 hp
    obtain ⟨frame, obj2, he, hd, _, _, _, _, _, _, _, _, _, _, hpp⟩ :=
      roundtrip_aux obj rsp hv hu hul h1 h2 h3 h4 (le_of_eq hp)
    exact ⟨frame, obj2, he, hd, hpp⟩
  · intro obj hv hu hp
    rw [EncodeFrame_v1 obj hv]
    simp only [encodeV1, if_neg hu,
      if_pos (show obj.payload.length > 64 * BytesInKilobyte - 1 by
        simp only [BytesInKilobyte]; omega)]

/-- A version-1 object whose uid and all four args are exactly 255 bytes. -/
def allBoundaryObj : Object :=
  { sampleObj with
    uid := List.replicate 255 117,
    arg1 := List.replicate 255 120, arg2 := List.replicate 255 121,
    arg3 := List.replicate 255 122, arg4 := List.replicate 255 123 }

/-- Objects with one oversize (256-byte) string field each. -/
def oversizeUidObj : Object := { sampleObj with uid := List.replicate 256 117 }

def oversizeArgObj : Object := { sampleObj with arg1 := List.replicate 256 120 }

def oversizeArg2Obj : Object := { sampleObj with arg2 := List.replicate 256 121 }

def oversizeArg3Obj : Object := { sampleObj with arg3 := List.replicate 256 122 }

def oversizeArg4Obj : Object := { sampleObj with arg4 := List.replicate 256 123 }

/-- Payload boundary objects: exactly 65535 bytes and 65536 bytes. -/
def boundaryPayloadObj : Object := { sampleObj with payload := List.replicate 65535 0 }

def oversizePayloadObj : Object := { sampleObj with payload := List.replicate 65536 0 }

/-- Witness for C6 at concrete boundary objects: all five string fields at
exactly 255 bytes round-trip; each of the five fields at 256 bytes fails
encoding with its string-too-long error; the 65535-byte payload round-trips
and the 65536-byte payload fails. -/
theorem length_prefix_boundary_witness :
    (∃ frame obj2, EncodeFrame allBoundaryObj = .ok frame ∧
      DecodeFrame frame (some sampleResponder) = .ok obj2 ∧
      obj2.uid = allBoundaryObj.uid ∧ obj2.arg1 = allBoundaryObj.arg1 ∧
      obj2.arg2 = allBoundaryObj.arg2 ∧ obj2.arg3 = allBoundaryObj.arg3 ∧
      obj2.arg4 = allBoundaryObj.arg4) ∧
    (∃ f n, EncodeFrame oversizeArg2Obj = .error (.stringTooLong f n) ∧ n ≥ 256) ∧
    EncodeFrame oversizeUidObj = .error (.stringTooLong .uid oversizeUidObj.uid.length) ∧
    EncodeFrame oversizeArgObj = .error (.stringTooLong .arg1 oversizeArgObj.arg1.length) ∧
    EncodeFrame oversizeArg2Obj = .error (.stringTooLong .arg2 oversizeArg2Obj.arg2.length) ∧
    EncodeFrame oversizeArg3Obj = .error (.stringTooLong .arg3 oversizeArg3Obj.arg3.length) ∧
    EncodeFrame oversizeArg4Obj = .error (.stringTooLong .arg4 oversizeArg4Obj.arg4.length) ∧
    (∃ frame obj2, EncodeFrame boundaryPayloadObj = .ok frame ∧
      DecodeFrame frame (some sampleResponder) = .ok obj2 ∧
      obj2.payload = boundaryPayloadObj.payload) ∧
    EncodeFrame oversizePayloadObj
      = .error (.payloadTooLarge oversizePayloadObj.payload.length) :=
  ⟨length_prefix_boundary.1 allBoundaryObj sampleResponder rfl
      (replicate_ne_nil 255 117 (by omega))
      (by simp only [allBoundaryObj, List.length_replicate]; omega)
      (by simp only [allBoundaryObj, List.length_replicate]; omega)
      (by simp only [allBoundaryObj, List.length_replicate]; omega)
      (by simp only [allBoundaryObj, List.length_replicate]; omega)
      (by simp only [allBoundaryObj, List.length_replicate]; omega)
      (by decide),
   length_prefix_boundary.2.1 oversizeArg2Obj rfl (by decide) (by decide)
      (Or.inr (Or.inr (Or.inl
        (by simp only [oversizeArg2Obj, List.length_replicate]; omega)))),
   length_prefix_boundary.2.2.1 oversizeUidObj rfl
      (replicate_ne_nil 256 117 (by omega)) (by decide)
      (by simp only [oversizeUidObj, List.length_replicate]; omega),
   length_prefix_boundary.2.2.2.1 oversizeArgObj rfl (by decide) (by decide)
      (by decide) (by simp only [oversizeArgObj, List.length_replicate]; omega),
   length_prefix_boundary.2.2.2.2.1 oversizeArg2Obj rfl (by decide) (by decide)
      (by decide) (by decide)
      (by simp only [oversizeArg2Obj, List.length_replicate]; omega),
   length_prefix_boundary.2.2.2.2.2.1 oversizeArg3Obj rfl (by decide) (by decide)
      (by decide) (by decide) (by decide)
      (by simp only [oversizeArg3Obj, List.length_replicate]; omega),
   length_prefix_boundary.2.2.2.2.2.2.1 oversizeArg4Obj rfl (by decide) (by decide)
      (by decide) (by decide) (by decide) (by decide)
      (by simp only [oversizeArg4Obj, List.length_replicate]; omega),
   length_prefix_boundary.2.2.2.2.2.2.2.1 boundaryPayloadObj sampleResponder rfl
      (by decide) (by decide) (by decide) (by decide) (by decide) (by decide)
      (by simp only [boundaryPayloadObj, List.length_replicate]),
   length_prefix_boundary.2.2.2.2.2.2.2.2 oversizePayloadObj rfl (by decide)
      (by simp only [oversizePayloadObj, List.length_replicate]; omega)⟩

/-- C7: for every input byte sequence whose version byte is 1 and whose UID
length prefix is 0, `DecodeFrame` fails with the empty-UID error and returns
no object; consequently every successfully decoded object has a non-empty
uid. -/
theorem empty_uid_rejected :
    (∀ (o c a : Nat) (rest : List Nat) (rsp : ConnResponder),
      DecodeFrame (1 :: o :: c :: a :: 0 :: rest) (some rsp)
        = .err (.emptyUID rsp.localAddr)) ∧
    (∀ (l : List Nat) (resp : Option ConnResponder) (obj2 : Object),
      DecodeFrame l resp = .ok obj2 → obj2.uid ≠ []) := by
  constructor
  · intro o c a rest rsp
    rfl
  · intro l resp obj2 h
    exact DecodeFrame_ok_uid h

/-- Witness for C7: a concrete zero-UID frame is rejected, and a concrete
successful decode has a non-empty uid. -/
theorem empty_uid_rejected_witness :
    (DecodeFrame [1, 0, 0, 0, 0] (some sampleResponder)
      = .err (.emptyUID sampleResponder.localAddr)) ∧
    (Object.mk 1 (some sampleResponder) (some ⟨0, [117]⟩) 2 3 1 [117] [65] []
      [66, 67] [] 1 [9, 8]).uid ≠ [] :=
  ⟨empty_uid_rejected.1 0 0 0 [] sampleResponder,
   empty_uid_rejected.2 [1, 2, 3, 1, 1, 117, 1, 65, 0, 2, 66, 67, 0, 1, 0, 2, 9, 8]
     (some sampleResponder) _ rfl⟩

/-- C10: decoding is total only when a responder is attached.  With no
responder, any version-1 input whose UID field parses as a non-empty string
panics via the unconditional responder dereference before the argument
fields, the empty-UID branch panics on the local-address dereference, and
with a responder attached `DecodeFrame` never panics. -/
theorem decode_nil_responder_panics :
    (∀ (o c a : Nat) (s rest : List Nat), s ≠ [] → s.length ≤ 255 →
      DecodeFrame (1 :: o :: c :: a :: s.length :: (s ++ rest)) none = .nilPanic) ∧
    (∀ (o c a : Nat) (rest : List Nat),
      DecodeFrame (1 :: o :: c :: a :: 0 :: rest) none = .nilPanic) ∧
    (∀ (l : List Nat) (rsp : ConnResponder), DecodeFrame l (some rsp) ≠ .nilPanic) := by
  refine ⟨?_, ?_, fun l rsp => DecodeFrame_no_panic l rsp⟩
  · intro o c a s rest hs hsl
    rw [DecodeFrame_cons_one]
    unfold decodeV1
    simp only [parseBaseHeader_chunk, parseTrackingHeader_chunk _ _ _ hs hsl]
    rfl
  · intro o c a rest
    rfl

/-- Witness for C10: a fully valid six-byte frame panics without a
responder, as does a zero-UID frame. -/
theorem decode_nil_responder_panics_witness :
    DecodeFrame (1 :: 0 :: 0 :: 0 :: ([120] : List Nat).length :: ([120] ++ [])) none
      = .nilPanic ∧
    DecodeFrame [1, 0, 0, 0, 0] none = .nilPanic :=
  ⟨decode_nil_responder_panics.1 0 0 0 [120] [] (by decide) (by decide),
   decode_nil_responder_panics.2.1 0 0 0 []⟩

/-- A version-2 object with no responder attached. -/
def v2NoResponder : Object := { sampleObj with version := 2 }

/-- A version-2 object with a responder attached. -/
def v2WithResponder : Object :=
  { sampleObj with version := 2, responder := some sampleResponder }

/-- A version-1 object with a response attached. -/
def v1WithResponse : Object := { sampleObj with response := some ⟨0, [117]⟩ }

/-- C4 counterexample: on a version-2 object with no responder attached,
`EncodeResponse` does not fall back to a placeholder error — it panics on
the nil responder dereference, returning no error at all. -/
theorem encodeResponse_nil_responder_counterexample :
    EncodeResponse v2NoResponder = .nilPanic ∧
    ∀ e, EncodeResponse v2NoResponder ≠ .err e := by
  constructor
  · rfl
  · intro e h
    rw [show EncodeResponse v2NoResponder = .nilPanic from rfl] at h
    cases h

/-- C4 amended: `EncodeResponse` dispatches on the object's version; for
version 1 it returns the bytes of `EncodeResponseV1` of the attached
response; for every other version it fails with an error naming the
responder's remote address when a responder is attached, and panics on a nil
dereference when none is attached (there is no placeholder fallback). -/
theorem encodeResponse_dispatch :
    (∀ (obj : Object) (r : Response), obj.version = 1 → obj.response = some r →
      EncodeResponse obj = .ok (EncodeResponseV1 r)) ∧
    (∀ (obj : Object) (rsp : ConnResponder), obj.version ≠ 1 →
      obj.responder = some rsp →
      EncodeResponse obj = .err (.unsupported rsp.remoteAddr)) ∧
    (∀ obj : Object, obj.version ≠ 1 → obj.responder = none →
      EncodeResponse obj = .nilPanic) := by
  refine ⟨?_, ?_, ?_⟩
  · intro obj r hv hr
    unfold EncodeResponse
    rw [hv, hr]
  · intro obj rsp hv hr
    unfold EncodeResponse
    rcases hveq : obj.version with _ | n
    · rw [hr]
    · rcases n with _ | m
      · exact absurd hveq hv
      · rw [hr]
        rfl
  · intro obj hv hr
    unfold EncodeResponse
    rcases hveq : obj.version with _ | n
    · rw [hr]
    · rcases n with _ | m
      · exact absurd hveq hv
      · rw [hr]
        rfl

/-- Witness for C4's amended dispatch behavior at concrete objects. -/
theorem encodeResponse_dispatch_witness :
    EncodeResponse v1WithResponse = .ok (EncodeResponseV1 ⟨0, [117]⟩) ∧
    EncodeResponse v2WithResponder = .err (.unsupported sampleResponder.remoteAddr) ∧
    EncodeResponse v2NoResponder = .nilPanic :=
  ⟨encodeResponse_dispatch.1 v1WithResponse ⟨0, [117]⟩ rfl rfl,
   encodeResponse_dispatch.2.1 v2WithResponder sampleResponder (by decide) rfl,
   encodeResponse_dispatch.2.2 v2NoResponder (by decide) rfl⟩

end Rhizome
